import Mathlib

/-!
Formal model of the comparable-property similarity scoring and filtering
engine of DSCR-Analyzer, translated from backend/mashvisor_search.py and
backend/routes/property.py.

Conventions of the shallow embedding:
- Python numbers are modelled as rationals.
- Python truthiness of a number is the test against zero; truthiness of a
  string is the test against the empty string; an absent dictionary entry
  is an Option none.
- A formatted comp dictionary always carries its numeric keys because the
  formatting code supplies a default of 0, so the Comp structure stores
  plain rationals there; the optional keys that the code only sometimes
  attaches, similarity_score and neighborhood_distance_miles, are Options.
- The float infinity sentinel used for distances is the top element of a
  WithTop type.
-/

/-- Python truthiness of a number: zero is falsy. -/
def truthyQ (q : ℚ) : Bool := q != 0

/-- Python truthiness of an optional number: an absent value and zero are falsy. -/
def truthyOQ : Option ℚ → Bool
  | Option.none => false
  | Option.some q => q != 0

/-- The target_property dictionary built inside get_property_comps from the
caller-supplied arguments; absent arguments are None. -/
structure Target where
  city : String
  state : String
  zipcode : String
  bedrooms : Option ℚ
  bathrooms : Option ℚ
  latitude : Option ℚ
  longitude : Option ℚ
  price : Option ℚ
  sqft : Option ℚ := Option.none
deriving DecidableEq, Repr

/-- A formatted comp dictionary, as built by the formatting loops of
get_long_term_comps_direct (lines 211 to 224) and of
_get_traditional_listings_by_neighborhood_enhanced (lines 486 to 504).
Numeric fields default to 0 in the code, so they are plain rationals here;
similarity_score and neighborhood_distance_miles are attached only in some
code paths, hence Options. -/
structure Comp where
  address : String
  city : String
  state : String
  zipcode : String
  price : ℚ
  rent : ℚ
  bedrooms : ℚ
  bathrooms : ℚ
  sqft : ℚ
  year_built : Option ℚ := Option.none
  property_type : String := ""
  neighborhood : Option String := Option.none
  source : String := ""
  neighborhood_distance_miles : Option (WithTop ℚ) := Option.none
  similarity_score : Option ℚ := Option.none
deriving DecidableEq, Repr

/-- Bedroom block of _calculate_similarity_score, lines 79 to 85. -/
def bedroomsScore (c : Comp) (t : Target) : ℚ :=
  if truthyQ c.bedrooms && truthyOQ t.bedrooms then
    let tb := t.bedrooms.getD 0
    if c.bedrooms = tb then 25
    else if |c.bedrooms - tb| = 1 then 15
    else if |c.bedrooms - tb| = 2 then 5
    else 0
  else 0

/-- Bathroom block of _calculate_similarity_score, lines 88 to 94. -/
def bathroomsScore (c : Comp) (t : Target) : ℚ :=
  if truthyQ c.bathrooms && truthyOQ t.bathrooms then
    let tb := t.bathrooms.getD 0
    if c.bathrooms = tb then 20
    else if |c.bathrooms - tb| ≤ 1/2 then 15
    else if |c.bathrooms - tb| ≤ 1 then 8
    else 0
  else 0

/-- Price block of _calculate_similarity_score, lines 97 to 109. -/
def priceScore (c : Comp) (t : Target) : ℚ :=
  if truthyQ c.price && truthyOQ t.price then
    let tp := t.price.getD 0
    if 0 < c.price ∧ 0 < tp then
      let pct := |c.price - tp| / tp
      if pct ≤ 1/10 then 20
      else if pct ≤ 1/5 then 15
      else if pct ≤ 3/10 then 10
      else if pct ≤ 1/2 then 5
      else 0
    else 0
  else 0

/-- Square-footage block of _calculate_similarity_score, lines 112 to 124. -/
def sqftScore (c : Comp) (t : Target) : ℚ :=
  if truthyQ c.sqft && truthyOQ t.sqft then
    let ts := t.sqft.getD 0
    if 0 < c.sqft ∧ 0 < ts then
      let pct := |c.sqft - ts| / ts
      if pct ≤ 1/10 then 15
      else if pct ≤ 1/5 then 12
      else if pct ≤ 3/10 then 8
      else if pct ≤ 1/2 then 4
      else 0
    else 0
  else 0

/-- Distance block of _calculate_similarity_score, lines 127 to 139: keyed on
the neighborhood_distance_miles entry being present (an is-not-None test, so
unlike the other blocks a value of 0 still counts); a missing entry awards a
flat 10. -/
def distScore (c : Comp) : ℚ :=
  match c.neighborhood_distance_miles with
  | Option.none => 10
  | Option.some d =>
    if d ≤ (1 : WithTop ℚ) then 20
    else if d ≤ 2 then 15
    else if d ≤ 5 then 10
    else if d ≤ 10 then 5
    else 0

/-- Python builtin min on two rationals, written as an explicit test so
that it evaluates by kernel reduction. -/
def pymin (a b : ℚ) : ℚ := if a ≤ b then a else b

/-- _calculate_similarity_score, lines 73 to 141: the five independent
additive blocks followed by the cap at 100. -/
def _calculate_similarity_score (c : Comp) (t : Target) : ℚ :=
  pymin (bedroomsScore c t + bathroomsScore c t + priceScore c t
       + sqftScore c t + distScore c) 100

/-- _should_include_comp, lines 528 to 556. Each guard uses Python
truthiness, so a bedroom or bathroom count of 0 on either side disables that
guard. -/
def _should_include_comp (c : Comp) (t : Target) : Bool :=
  if c.address = "" ∨ c.price ≤ 0 then false
  else if truthyOQ t.bedrooms && truthyQ c.bedrooms
          && decide (1 < |c.bedrooms - t.bedrooms.getD 0|) then false
  else if truthyOQ t.bathrooms && truthyQ c.bathrooms
          && decide (1 < |c.bathrooms - t.bathrooms.getD 0|) then false
  else if truthyOQ t.price && truthyQ c.price
          && decide (0 < t.price.getD 0) && decide (0 < c.price)
          && (decide (c.price / t.price.getD 0 < 1/2)
              || decide (2 < c.price / t.price.getD 0)) then false
  else true

/-- A target with every optional field absent. -/
def emptyTarget : Target :=
  { city := "", state := "", zipcode := "", bedrooms := Option.none,
    bathrooms := Option.none, latitude := Option.none,
    longitude := Option.none, price := Option.none }

/-- A formatted comp whose numeric fields all carry the formatting default 0
and which carries no distance entry: every scorable dimension is absent. -/
def blankComp : Comp :=
  { address := "", city := "", state := "", zipcode := "",
    price := 0, rent := 0, bedrooms := 0, bathrooms := 0, sqft := 0 }

theorem bedroomsScore_bounds (c : Comp) (t : Target) :
    0 ≤ bedroomsScore c t ∧ bedroomsScore c t ≤ 25 := by
  simp only [bedroomsScore]; split_ifs <;> norm_num

theorem bathroomsScore_bounds (c : Comp) (t : Target) :
    0 ≤ bathroomsScore c t ∧ bathroomsScore c t ≤ 20 := by
  simp only [bathroomsScore]; split_ifs <;> norm_num

theorem priceScore_bounds (c : Comp) (t : Target) :
    0 ≤ priceScore c t ∧ priceScore c t ≤ 20 := by
  simp only [priceScore]; split_ifs <;> norm_num

theorem sqftScore_bounds (c : Comp) (t : Target) :
    0 ≤ sqftScore c t ∧ sqftScore c t ≤ 15 := by
  simp only [sqftScore]; split_ifs <;> norm_num

theorem distScore_bounds (c : Comp) :
    0 ≤ distScore c ∧ distScore c ≤ 20 := by
  unfold distScore
  rcases c.neighborhood_distance_miles with _ | d
  · norm_num
  · dsimp only; split_ifs <;> norm_num

/-- Claim C4, amended: the similarity score always lies in the closed
interval from 0 to 100, and when every scorable dimension is absent
(bedrooms, bathrooms, price and square footage fail their truthiness
guards on at least one side, and no neighborhood distance entry is
attached) the score is exactly 10, the flat default that the distance
block awards when no distance is known, rather than 0. -/
theorem claim4_score_range_and_all_missing :
    (∀ c t, 0 ≤ _calculate_similarity_score c t
        ∧ _calculate_similarity_score c t ≤ 100)
    ∧ (∀ c t, (truthyQ c.bedrooms && truthyOQ t.bedrooms) = false
        → (truthyQ c.bathrooms && truthyOQ t.bathrooms) = false
        → (truthyQ c.price && truthyOQ t.price) = false
        → (truthyQ c.sqft && truthyOQ t.sqft) = false
        → c.neighborhood_distance_miles = Option.none
        → _calculate_similarity_score c t = 10) := by
  constructor
  · intro c t
    unfold _calculate_similarity_score
    have h1 := bedroomsScore_bounds c t
    have h2 := bathroomsScore_bounds c t
    have h3 := priceScore_bounds c t
    have h4 := sqftScore_bounds c t
    have h5 := distScore_bounds c
    unfold pymin
    split_ifs with h
    · constructor
      · linarith [h1.1, h2.1, h3.1, h4.1, h5.1]
      · exact h
    · norm_num
  · intro c t hb hba hp hs hd
    unfold _calculate_similarity_score
    rw [show bedroomsScore c t = 0 by unfold bedroomsScore; rw [hb]; rfl,
        show bathroomsScore c t = 0 by unfold bathroomsScore; rw [hba]; rfl,
        show priceScore c t = 0 by unfold priceScore; rw [hp]; rfl,
        show sqftScore c t = 0 by unfold sqftScore; rw [hs]; rfl,
        show distScore c = 10 by unfold distScore; rw [hd]]
    unfold pymin
    norm_num

/-- Claim C4 witness: at a concrete comp and target with every scorable
field absent, the score is within bounds and equals 10. -/
theorem claim4_witness :
    (0 ≤ _calculate_similarity_score blankComp emptyTarget
      ∧ _calculate_similarity_score blankComp emptyTarget ≤ 100)
    ∧ _calculate_similarity_score blankComp emptyTarget = 10 :=
  ⟨claim4_score_range_and_all_missing.1 blankComp emptyTarget,
   claim4_score_range_and_all_missing.2 blankComp emptyTarget
     (by decide) (by decide) (by decide) (by decide) rfl⟩

/-- Claim C4 counterexample: when every scorable field is absent on both
sides the score is 10, not 0 as the claim states, because the distance
block awards a flat default of 10 when no distance entry is attached. -/
theorem claim4_counterexample :
    _calculate_similarity_score blankComp emptyTarget = 10
    ∧ _calculate_similarity_score blankComp emptyTarget ≠ 0 := by
  have h : _calculate_similarity_score blankComp emptyTarget = 10 := by
    norm_num [_calculate_similarity_score, bedroomsScore, bathroomsScore,
      priceScore, sqftScore, distScore, pymin, blankComp, emptyTarget,
      truthyQ, truthyOQ]
  exact ⟨h, by rw [h]; norm_num⟩

/-- The inclusion filter exactly as the spec words it, for comparison with
the implementation: the bedroom and bathroom guards fire whenever the
target carries a count at all, a count of 0 included. On a formatted comp
the count key is always present, so only the target side can be absent. -/
def spec_shouldInclude (c : Comp) (t : Target) : Bool :=
  !(decide (c.address = "") || decide (c.price ≤ 0)
    || (t.bedrooms.isSome && decide (1 < |c.bedrooms - t.bedrooms.getD 0|))
    || (t.bathrooms.isSome && decide (1 < |c.bathrooms - t.bathrooms.getD 0|))
    || (t.price.isSome && decide (0 < t.price.getD 0) && decide (0 < c.price)
        && (decide (c.price / t.price.getD 0 < 1/2)
            || decide (2 < c.price / t.price.getD 0))))

/-- A comp with a valid address and price whose bedroom count is 0. -/
def zeroBedComp : Comp :=
  { address := "1 Elm St", city := "", state := "", zipcode := "",
    price := 100, rent := 100, bedrooms := 0, bathrooms := 0, sqft := 0 }

/-- A target asking for 3 bedrooms. -/
def threeBedTarget : Target :=
  { emptyTarget with bedrooms := Option.some 3 }

/-- Claim C6 counterexample: comp bedrooms 0, target bedrooms 3, difference
3 exceeds 1 and per the claim both sides have a bedroom count, so the claim
demands rejection; the code accepts the comp because Python truthiness
treats the count 0 as missing. -/
theorem claim6_counterexample :
    _should_include_comp zeroBedComp threeBedTarget = true
    ∧ spec_shouldInclude zeroBedComp threeBedTarget = false := by
  constructor
  · norm_num [_should_include_comp, zeroBedComp, threeBedTarget,
      emptyTarget, truthyQ, truthyOQ]
    decide
  · norm_num [spec_shouldInclude, zeroBedComp, threeBedTarget, emptyTarget]

/-- Claim C6, amended: the filter rejects exactly when one of the four
conditions holds, with the bedroom and bathroom conditions requiring a
nonzero count on both sides (a count of 0, like a missing one, is falsy in
Python and imposes no constraint); absent fields never cause rejection. -/
theorem claim6_filter_characterization (c : Comp) (t : Target) :
    _should_include_comp c t = false ↔
      (c.address = "" ∨ c.price ≤ 0)
      ∨ (truthyOQ t.bedrooms = true ∧ c.bedrooms ≠ 0
          ∧ 1 < |c.bedrooms - t.bedrooms.getD 0|)
      ∨ (truthyOQ t.bathrooms = true ∧ c.bathrooms ≠ 0
          ∧ 1 < |c.bathrooms - t.bathrooms.getD 0|)
      ∨ (truthyOQ t.price = true ∧ 0 < t.price.getD 0 ∧ 0 < c.price
          ∧ (c.price / t.price.getD 0 < 1/2 ∨ 2 < c.price / t.price.getD 0)) := by
  unfold _should_include_comp
  split_ifs with h1 h2 h3 h4 <;>
    simp_all [truthyQ, Bool.and_eq_true, decide_eq_true_eq, bne_iff_ne] <;>
    first
      | tauto
      | linarith
      | (intro ha hb
         exact h4 ha (ne_of_gt h1.2) hb)

/-- Claim C6 witness: the characterization applied at a concrete rejected
input, a comp with 5 bedrooms against a target with 3. -/
theorem claim6_witness :
    _should_include_comp
      { zeroBedComp with bedrooms := 5 } threeBedTarget = false :=
  (claim6_filter_characterization _ _).mpr
    (Or.inr (Or.inl (by norm_num [threeBedTarget, emptyTarget,
      zeroBedComp, truthyOQ])))

/-- Python str.lower modelled character by character (ASCII case fold). -/
def pyLower (s : String) : String := String.mk (s.data.map Char.toLower)

/-- Python str.strip with no argument: remove leading and trailing
whitespace. -/
def pyStrip (s : String) : String :=
  String.mk (((s.data.dropWhile Char.isWhitespace).reverse.dropWhile
    Char.isWhitespace).reverse)

/-- Normalized dedup key of line 295: address lowercased then stripped. -/
def normKey (c : Comp) : String := pyStrip (pyLower c.address)

/-- Sort key of lines 233, 301 and 513: the similarity_score entry with
default 0. -/
def scoreKey (c : Comp) : ℚ := c.similarity_score.getD 0

/-- Insertion step of a stable descending sort on the similarity score:
the new element goes in front of the first element whose key does not
exceed it, so among equal keys earlier input elements stay first, exactly
as the stable Python sort with reverse set behaves. -/
def insertScoreDesc (x : Comp) : List Comp → List Comp
  | [] => [x]
  | y :: ys =>
    if scoreKey y ≤ scoreKey x then x :: y :: ys
    else y :: insertScoreDesc x ys

/-- Stable descending sort by similarity score, modelling the Python list
sort with a score key and reverse set (lines 233, 301, 513). -/
def sortScoreDesc : List Comp → List Comp
  | [] => []
  | x :: xs => insertScoreDesc x (sortScoreDesc xs)

/-- Loop of lines 292 to 298: keep a comp when its normalized address key
is nonempty and unseen, recording the key as seen. -/
def dedupGo (seen : List String) : List Comp → List Comp
  | [] => []
  | c :: rest =>
    if normKey c ≠ "" ∧ normKey c ∉ seen
    then c :: dedupGo (normKey c :: seen) rest
    else dedupGo seen rest

/-- Address deduplication of lines 291 to 298, starting from no seen keys. -/
def dedupComps (l : List Comp) : List Comp := dedupGo [] l

/-- Lines 290 to 316: on a nonempty accumulator, deduplicate, sort by
descending similarity score, and keep the first 15; an empty accumulator
yields the empty list. -/
def finalizeComps (l : List Comp) : List Comp :=
  if l.isEmpty then [] else (sortScoreDesc (dedupComps l)).take 15

theorem insertScoreDesc_perm (x : Comp) (l : List Comp) :
    List.Perm (insertScoreDesc x l) (x :: l) := by
  induction l with
  | nil => rfl
  | cons y ys ih =>
    unfold insertScoreDesc
    split_ifs
    · rfl
    · exact (ih.cons y).trans (List.Perm.swap x y ys)

theorem sortScoreDesc_perm (l : List Comp) : List.Perm (sortScoreDesc l) l := by
  induction l with
  | nil => rfl
  | cons x xs ih =>
    exact (insertScoreDesc_perm x (sortScoreDesc xs)).trans (ih.cons x)

/-- Descending sortedness on the score key. -/
def SortedDesc (l : List Comp) : Prop :=
  l.Pairwise (fun a b => scoreKey b ≤ scoreKey a)

theorem insertScoreDesc_sorted (x : Comp) (l : List Comp)
    (h : SortedDesc l) : SortedDesc (insertScoreDesc x l) := by
  induction l with
  | nil => simp [insertScoreDesc, SortedDesc]
  | cons y ys ih =>
    unfold SortedDesc at h ⊢
    rcases List.pairwise_cons.1 h with ⟨hy, hys⟩
    unfold insertScoreDesc
    split_ifs with hle
    · exact List.pairwise_cons.2 ⟨by
        intro b hb
        rcases List.mem_cons.1 hb with rfl | hb
        · exact hle
        · exact le_trans (hy b hb) hle,
        h⟩
    · refine List.pairwise_cons.2 ⟨?_, ih hys⟩
      intro b hb
      have hb' := (insertScoreDesc_perm x ys).mem_iff.1 hb
      rcases List.mem_cons.1 hb' with rfl | hb'
      · exact le_of_lt (lt_of_not_le hle)
      · exact hy b hb'

theorem sortScoreDesc_sorted (l : List Comp) : SortedDesc (sortScoreDesc l) := by
  induction l with
  | nil => exact List.Pairwise.nil
  | cons x xs ih => exact insertScoreDesc_sorted x (sortScoreDesc xs) ih

theorem insertScoreDesc_filter (x : Comp) (l : List Comp) (s : ℚ)
    (h : SortedDesc l) :
    (insertScoreDesc x l).filter (fun c => scoreKey c == s)
      = if scoreKey x = s
        then x :: l.filter (fun c => scoreKey c == s)
        else l.filter (fun c => scoreKey c == s) := by
  induction l with
  | nil =>
    by_cases hxs : scoreKey x = s <;>
      simp [insertScoreDesc, List.filter_cons, hxs]
  | cons y ys ih =>
    rcases List.pairwise_cons.1 h with ⟨hy, hys⟩
    unfold insertScoreDesc
    by_cases hle : scoreKey y ≤ scoreKey x
    · rw [if_pos hle]
      by_cases hxs : scoreKey x = s <;>
        simp [List.filter_cons, hxs]
    · rw [if_neg hle]
      have hlt : scoreKey x < scoreKey y := lt_of_not_le hle
      by_cases hxs : scoreKey x = s
      · have hyne : ¬ scoreKey y = s := by
          intro hc
          rw [hxs, ← hc] at hlt
          exact lt_irrefl _ hlt
        simp [List.filter_cons, hyne, hxs, ih hys]
      · by_cases hyy : scoreKey y = s <;>
          simp [List.filter_cons, hyy, hxs, ih hys]

theorem sortScoreDesc_filter (l : List Comp) (s : ℚ) :
    (sortScoreDesc l).filter (fun c => scoreKey c == s)
      = l.filter (fun c => scoreKey c == s) := by
  induction l with
  | nil => rfl
  | cons x xs ih =>
    unfold sortScoreDesc
    rw [insertScoreDesc_filter x (sortScoreDesc xs) s (sortScoreDesc_sorted xs)]
    by_cases hxs : scoreKey x = s <;>
      simp [List.filter_cons, hxs, ih]

theorem dedupGo_mem (seen : List String) (l : List Comp) (c : Comp)
    (hc : c ∈ dedupGo seen l) :
    c ∈ l ∧ normKey c ≠ "" ∧ normKey c ∉ seen := by
  induction l generalizing seen with
  | nil => simp [dedupGo] at hc
  | cons d rest ih =>
    unfold dedupGo at hc
    split_ifs at hc with h
    · rcases List.mem_cons.1 hc with rfl | hc'
      · exact ⟨List.mem_cons_self _ _, h.1, h.2⟩
      · rcases ih _ hc' with ⟨hmem, hne, hnotin⟩
        exact ⟨List.mem_cons_of_mem _ hmem, hne,
          fun hs => hnotin (List.mem_cons_of_mem _ hs)⟩
    · rcases ih _ hc with ⟨hmem, hne, hnotin⟩
      exact ⟨List.mem_cons_of_mem _ hmem, hne, hnotin⟩

theorem dedupGo_pairwise (seen : List String) (l : List Comp) :
    (dedupGo seen l).Pairwise (fun a b => normKey a ≠ normKey b) := by
  induction l generalizing seen with
  | nil => exact List.Pairwise.nil
  | cons d rest ih =>
    unfold dedupGo
    split_ifs with h
    · refine List.pairwise_cons.2 ⟨?_, ih _⟩
      intro b hb
      have := (dedupGo_mem _ _ _ hb).2.2
      intro hEq
      exact this (by rw [← hEq]; exact List.mem_cons_self _ _)
    · exact ih _

theorem dedupGo_firstSeen (seen : List String) (l : List Comp) (c : Comp)
    (hc : c ∈ dedupGo seen l) :
    (l.filter (fun x => normKey x == normKey c)).head? = Option.some c := by
  induction l generalizing seen with
  | nil => simp [dedupGo] at hc
  | cons d rest ih =>
    unfold dedupGo at hc
    split_ifs at hc with h
    · rcases List.mem_cons.1 hc with rfl | hc'
      · simp [List.filter]
      · have hne : normKey d ≠ normKey c := by
          have := (dedupGo_mem _ _ _ hc').2.2
          intro hEq
          exact this (by rw [← hEq]; exact List.mem_cons_self _ _)
        have : (normKey d == normKey c) = false := by
          simpa [beq_eq_false_iff_ne] using hne
        simp only [List.filter, this]
        exact ih _ hc'
    · have hinfo := dedupGo_mem _ _ _ hc
      have hne : normKey d ≠ normKey c := by
        intro hEq
        rcases not_and_or.1 h with h' | h'
        · exact hinfo.2.1 (by rw [← hEq]; simpa using h')
        · exact hinfo.2.2 (by rw [← hEq]; simpa using h')
      have : (normKey d == normKey c) = false := by
        simpa [beq_eq_false_iff_ne] using hne
      simp only [List.filter, this]
      exact ih _ hc

/-- One raw upstream record: a JSON object whose keys may be absent or
spelled differently across sources (price or rent, beds or bedrooms). -/
structure RawComp where
  address : Option String := Option.none
  city : Option String := Option.none
  state : Option String := Option.none
  zipcode : Option String := Option.none
  price : Option ℚ := Option.none
  rent : Option ℚ := Option.none
  bedrooms : Option ℚ := Option.none
  beds : Option ℚ := Option.none
  bathrooms : Option ℚ := Option.none
  baths : Option ℚ := Option.none
  sqft : Option ℚ := Option.none
  year_built : Option ℚ := Option.none
  type : Option String := Option.none
  property_type : Option String := Option.none
  neighborhood : Option String := Option.none
deriving DecidableEq, Repr

/-- The content value of a successful API body: either a JSON object whose
entries may hold record lists, or directly a list of records. -/
inductive PayloadContent where
  | dict (entries : List (String × List RawComp))
  | list (items : List RawComp)
deriving DecidableEq

/-- A parsed JSON response body with its status field and optional content. -/
structure ApiBody where
  status : String
  content : Option PayloadContent
deriving DecidableEq

/-- One raw neighborhood record from the city neighborhoods endpoint. -/
structure RawHood where
  id : Option String := Option.none
  name : Option String := Option.none
  latitude : Option ℚ := Option.none
  longitude : Option ℚ := Option.none
deriving DecidableEq, Repr

/-- The neighborhoods response collapsed to the fields the code reads: the
results value is absent whenever content or results is missing. -/
structure HoodsBody where
  status : String
  results : Option (List RawHood)
deriving DecidableEq

/-- Outcome of one outbound HTTP call: exn covers a raised exception during
the request or during the processing of its payload (both are swallowed by
the enclosing try block), httpError a non-200 status code, ok a parsed
body. -/
inductive Fetch (α : Type) where
  | exn : Fetch α
  | httpError (code : Nat) : Fetch α
  | ok (body : α) : Fetch α
deriving DecidableEq

/-- Whether the outcome of a call is a failure. -/
def Fetch.isFail {α : Type} : Fetch α → Bool
  | Fetch.ok _ => false
  | _ => true

/-- The three upstream collaborators: the direct long-term comps endpoint,
the city neighborhoods endpoint, and the per-neighborhood traditional
listings endpoint keyed by neighborhood id. -/
structure Env where
  direct : Fetch ApiBody
  hoods : Fetch HoodsBody
  listings : String → Fetch ApiBody

/-- Python truthiness of the content value: an empty object or empty list
is falsy. -/
def contentTruthy : Option PayloadContent → Bool
  | Option.none => false
  | Option.some (PayloadContent.dict es) => !es.isEmpty
  | Option.some (PayloadContent.list xs) => !xs.isEmpty

/-- The key probe of lines 188 to 192 and 467 to 471: take the list stored
under the first standard key present in the object. -/
def lookupKeys (keys : List String) (es : List (String × List RawComp)) :
    List RawComp :=
  match keys with
  | [] => []
  | k :: ks =>
    match es.lookup k with
    | Option.some v => v
    | Option.none => lookupKeys ks es

/-- Shared payload parsing of the two listing endpoints (lines 181 to 206
and 460 to 481): require a success status and truthy content, then read the
record list from the first standard key, or the content itself when it is
directly a list. -/
def extractRecords (keys : List String) (b : ApiBody) : List RawComp :=
  if b.status = "success" ∧ contentTruthy b.content then
    match b.content with
    | Option.some (PayloadContent.dict es) => lookupKeys keys es
    | Option.some (PayloadContent.list xs) => xs
    | Option.none => []
  else []

/-- Field normalization for a direct comps record, lines 211 to 224. -/
def formatDirectComp (r : RawComp) : Comp :=
  { address := r.address.getD "", city := r.city.getD "",
    state := r.state.getD "", zipcode := r.zipcode.getD "",
    price := r.price.getD 0,
    rent := r.rent.getD (r.price.getD 0),
    bedrooms := r.bedrooms.getD (r.beds.getD 0),
    bathrooms := r.bathrooms.getD (r.baths.getD 0),
    sqft := r.sqft.getD 0, year_built := r.year_built,
    property_type := r.type.getD (r.property_type.getD ""),
    neighborhood := Option.none,
    source := "Mashvisor Long-term Comps API",
    neighborhood_distance_miles := Option.none,
    similarity_score := Option.none }

/-- get_long_term_comps_direct, lines 143 to 249: any call failure or
processing exception yields the empty list; a parsed body is formatted,
filtered, scored, sorted by descending score and cut to the top 15. The
second component counts the outbound calls made, always one here. -/
def get_long_term_comps_direct (f : Fetch ApiBody) (t : Target) :
    List Comp × Nat :=
  match f with
  | Fetch.exn => ([], 1)
  | Fetch.httpError _ => ([], 1)
  | Fetch.ok b =>
    let raw := extractRecords ["results", "properties", "listings", "comps", "data"] b
    let formatted := raw.filterMap (fun r =>
      let fc := formatDirectComp r
      if _should_include_comp fc t
      then Option.some { fc with
        similarity_score := Option.some (_calculate_similarity_score fc t) }
      else Option.none)
    ((sortScoreDesc formatted).take 15, 1)

/-- A neighborhood dictionary as built in get_city_neighborhoods, possibly
enriched with a transient distance entry during ranking. -/
structure Hood where
  id : Option String
  name : Option String
  latitude : Option ℚ
  longitude : Option ℚ
  distance_miles : Option (WithTop ℝ) := Option.none

/-- get_city_neighborhoods, lines 385 to 425: failures and non-success or
contentless bodies yield the empty list, otherwise the result records are
projected onto id, name and coordinates. -/
def get_city_neighborhoods (f : Fetch HoodsBody) : List Hood × Nat :=
  match f with
  | Fetch.exn => ([], 1)
  | Fetch.httpError _ => ([], 1)
  | Fetch.ok b =>
    if decide (b.status = "success")
        && (match b.results with
            | Option.some rs => !rs.isEmpty
            | Option.none => false) then
      ((b.results.getD []).map (fun h =>
        { id := h.id, name := h.name, latitude := h.latitude,
          longitude := h.longitude : Hood }), 1)
    else ([], 1)

/-- The haversine great-circle distance in miles of _calculate_distance,
lines 28 to 36: degrees are converted to radians and the Earth radius is
3956 miles. -/
noncomputable def haversine_miles (lat1 lon1 lat2 lon2 : ℝ) : ℝ :=
  let rlat1 := lat1 * (Real.pi / 180)
  let rlon1 := lon1 * (Real.pi / 180)
  let rlat2 := lat2 * (Real.pi / 180)
  let rlon2 := lon2 * (Real.pi / 180)
  let dlat := rlat2 - rlat1
  let dlon := rlon2 - rlon1
  let a := Real.sin (dlat / 2) ^ 2
    + Real.cos rlat1 * Real.cos rlat2 * Real.sin (dlon / 2) ^ 2
  let c := 2 * Real.arcsin (Real.sqrt a)
  c * 3956

/-- _calculate_distance, lines 22 to 36. The guard is a Python all test on
the four raw coordinate values, so a coordinate equal to 0 counts as
missing exactly like None and triggers the float infinity sentinel, here
the top element. -/
noncomputable def _calculate_distance (lat1 lon1 lat2 lon2 : Option ℚ) :
    WithTop ℝ :=
  if truthyOQ lat1 && truthyOQ lon1 && truthyOQ lat2 && truthyOQ lon2 then
    ((haversine_miles (lat1.getD 0) (lon1.getD 0) (lat2.getD 0) (lon2.getD 0) : ℝ) : WithTop ℝ)
  else ⊤

/-- Sort key of line 55: the distance entry with the infinity default. -/
def hoodDistanceKey (h : Hood) : WithTop ℝ := h.distance_miles.getD ⊤

open Classical in
/-- Insertion step of a stable ascending sort on the distance key: the new
element goes before the first element whose key is at least as large, so
equal keys keep input order, as the stable Python sort does. -/
noncomputable def insertHoodAsc (x : Hood) : List Hood → List Hood
  | [] => [x]
  | y :: ys =>
    if hoodDistanceKey x ≤ hoodDistanceKey y then x :: y :: ys
    else y :: insertHoodAsc x ys

/-- Stable ascending sort of neighborhoods by distance, line 55. -/
noncomputable def sortHoodsAsc : List Hood → List Hood
  | [] => []
  | x :: xs => insertHoodAsc x (sortHoodsAsc xs)

/-- _find_closest_neighborhoods, lines 38 to 70: with both target
coordinates present (an is-not-None test, so 0 is a valid coordinate
here), attach a distance to every neighborhood and sort ascending by it;
otherwise, zipcode or not, return the input order unchanged. -/
noncomputable def _find_closest_neighborhoods (hoods : List Hood)
    (zipcode : String) (latitude longitude : Option ℚ) : List Hood :=
  if hoods.isEmpty then hoods
  else if latitude.isSome && longitude.isSome then
    sortHoodsAsc (hoods.map (fun h =>
      { h with distance_miles :=
          Option.some (_calculate_distance latitude longitude h.latitude h.longitude) }))
  else hoods

/-- Python round to two decimal places lifted to the distance domain; the
infinite sentinel stays infinite, as float round does with ndigits. Mathlib
round differs from the Python half-to-even rule only on exact half
boundaries, which no statement below touches. -/
noncomputable def round2 (d : WithTop ℝ) : WithTop ℚ :=
  WithTop.map (fun x : ℝ => ((round (x * 100) : ℤ) : ℚ) / 100) d

/-- Field normalization for a neighborhood listing record, lines 486 to
504: note rent copies price, and the beds and baths synonyms take
precedence here, the reverse of the direct comps formatter; the distance
entry is attached rounded to two decimals when one is known. -/
noncomputable def formatHoodComp (r : RawComp) (dist : Option (WithTop ℝ)) : Comp :=
  { address := r.address.getD "", city := r.city.getD "",
    state := r.state.getD "", zipcode := r.zipcode.getD "",
    price := r.price.getD 0, rent := r.price.getD 0,
    bedrooms := r.beds.getD (r.bedrooms.getD 0),
    bathrooms := r.baths.getD (r.bathrooms.getD 0),
    sqft := r.sqft.getD 0, year_built := r.year_built,
    property_type := r.type.getD "",
    neighborhood := Option.some (r.neighborhood.getD ""),
    source := "Mashvisor Neighborhood API",
    neighborhood_distance_miles := dist.map round2,
    similarity_score := Option.none }

/-- _get_traditional_listings_by_neighborhood_enhanced, lines 427 to 526:
any call failure or processing exception yields the empty list; a parsed
body is formatted, filtered, scored, sorted by descending score and cut to
the top 10 for this neighborhood. -/
noncomputable def _get_traditional_listings_by_neighborhood_enhanced
    (f : Fetch ApiBody) (t : Target) (neighborhood_distance : Option (WithTop ℝ)) :
    List Comp × Nat :=
  match f with
  | Fetch.exn => ([], 1)
  | Fetch.httpError _ => ([], 1)
  | Fetch.ok b =>
    let raw := extractRecords ["results", "properties", "listings", "items", "data"] b
    let formatted := raw.filterMap (fun r =>
      let fc := formatHoodComp r neighborhood_distance
      if _should_include_comp fc t
      then Option.some { fc with
        similarity_score := Option.some (_calculate_similarity_score fc t) }
      else Option.none)
    ((sortScoreDesc formatted).take 10, 1)

/-- The neighborhood loop of lines 352 to 377: walk the ranked
neighborhoods, stopping at index 8; skip entries with a falsy id; fetch
listings for the others; extend the phase accumulator with nonempty
results and break once it holds at least 15 comps. Returns the phase
accumulator, a log holding for each fetch the neighborhood id and the size
the phase accumulator had when that fetch was issued, and the number of
fetches. -/
noncomputable def hoodLoop (env : Env) (t : Target) :
    List Hood → Nat → List Comp → List Comp × List (String × Nat) × Nat
  | [], _, acc => (acc, [], 0)
  | h :: rest, i, acc =>
    if 8 ≤ i then (acc, [], 0)
    else if h.id.getD "" = "" then hoodLoop env t rest (i + 1) acc
    else
      let hid := h.id.getD ""
      let fetched := _get_traditional_listings_by_neighborhood_enhanced
        (env.listings hid) t h.distance_miles
      let comps := fetched.1
      if comps.isEmpty then
        let r := hoodLoop env t rest (i + 1) acc
        (r.1, (hid, acc.length) :: r.2.1, r.2.2 + 1)
      else
        let acc' := acc ++ comps
        if 15 ≤ acc'.length then (acc', [(hid, acc.length)], 1)
        else
          let r := hoodLoop env t rest (i + 1) acc'
          (r.1, (hid, acc.length) :: r.2.1, r.2.2 + 1)

/-- _get_neighborhood_based_comps, lines 324 to 383: look up the city
neighborhoods, return empty when none are found, otherwise rank them by
proximity and run the neighborhood loop on a fresh phase accumulator. -/
noncomputable def _get_neighborhood_based_comps (env : Env) (t : Target) :
    List Comp × List (String × Nat) × Nat :=
  let fetched := get_city_neighborhoods env.hoods
  let hoods := fetched.1
  if hoods.isEmpty then ([], [], fetched.2)
  else
    let sorted := _find_closest_neighborhoods hoods t.zipcode t.latitude t.longitude
    let r := hoodLoop env t sorted 0 []
    (r.1, r.2.1, fetched.2 + r.2.2)

/-- The target_property dictionary of lines 262 to 271. -/
def mkTarget (city state zipcode : String)
    (bedrooms bathrooms latitude longitude price : Option ℚ) : Target :=
  { city := city, state := state, zipcode := zipcode, bedrooms := bedrooms,
    bathrooms := bathrooms, latitude := latitude, longitude := longitude,
    price := price, sqft := Option.none }

/-- The candidate accumulator all_comps of get_property_comps just before
deduplication (lines 273 to 288): the direct comps, supplemented by the
neighborhood phase only when fewer than 5 were obtained, together with the
fetch log of the neighborhood phase and the total outbound call count. -/
noncomputable def allCompsAcc (env : Env) (city state zipcode : String)
    (bedrooms bathrooms latitude longitude price : Option ℚ) :
    List Comp × List (String × Nat) × Nat :=
  let t := mkTarget city state zipcode bedrooms bathrooms latitude longitude price
  let direct := get_long_term_comps_direct env.direct t
  if direct.1.length < 5 then
    let supp := _get_neighborhood_based_comps env t
    (direct.1 ++ supp.1, supp.2.1, direct.2 + supp.2.2)
  else (direct.1, [], direct.2)

/-- get_property_comps, lines 252 to 322: accumulate candidates from the
sources, then deduplicate, sort and truncate. The enclosing try block
never fires on well-typed input because every callee already catches its
own failures, so the function is the finalization of the accumulator.
Second component: total outbound calls. -/
noncomputable def get_property_comps (env : Env) (city state zipcode : String)
    (bedrooms bathrooms latitude longitude price : Option ℚ) : List Comp × Nat :=
  let acc := allCompsAcc env city state zipcode bedrooms bathrooms latitude longitude price
  (finalizeComps acc.1, acc.2.2)

/-- The request body of the property-comps route, routes/property.py lines
102 to 115: every field is optional with an empty-string default for the
location parts. -/
structure PropReq where
  address : Option String := Option.none
  city : Option String := Option.none
  state : Option String := Option.none
  zip : Option String := Option.none
  bedrooms : Option ℚ := Option.none
  bathrooms : Option ℚ := Option.none
  latitude : Option ℚ := Option.none
  longitude : Option ℚ := Option.none

/-- The route handler get_property_comps of routes/property.py lines 102
to 143: no validation of city or state occurs; the aggregator is invoked
with empty-string defaults and no price, and when it returns no comps a
fallback neighborhoods lookup is made before returning the empty list. -/
noncomputable def routePropertyComps (env : Env) (req : PropReq) :
    List Comp × Nat :=
  let comps := get_property_comps env (req.city.getD "") (req.state.getD "")
    (req.zip.getD "") req.bedrooms req.bathrooms req.latitude req.longitude
    Option.none
  if !comps.1.isEmpty then comps
  else
    let nb := get_city_neighborhoods env.hoods
    ([], comps.2 + nb.2)

theorem finalizeComps_pairwiseKeys (l : List Comp) :
    (finalizeComps l).Pairwise (fun a b => normKey a ≠ normKey b) := by
  unfold finalizeComps
  split_ifs
  · exact List.Pairwise.nil
  · have hd := dedupGo_pairwise [] l
    have hp : (sortScoreDesc (dedupComps l)).Pairwise
        (fun a b => normKey a ≠ normKey b) :=
      ((sortScoreDesc_perm (dedupComps l)).pairwise_iff
        (fun h he => h he.symm)).2 hd
    exact hp.sublist (List.take_sublist _ _)

theorem finalizeComps_length (l : List Comp) :
    (finalizeComps l).length ≤ 15 := by
  unfold finalizeComps
  split_ifs
  · simp
  · simpa using List.length_take_le _ _

theorem finalizeComps_sorted (l : List Comp) : SortedDesc (finalizeComps l) := by
  unfold finalizeComps
  split_ifs
  · exact List.Pairwise.nil
  · exact (sortScoreDesc_sorted (dedupComps l)).sublist (List.take_sublist _ _)

theorem finalizeComps_mem_dedup (l : List Comp) (c : Comp)
    (hc : c ∈ finalizeComps l) : c ∈ dedupComps l := by
  unfold finalizeComps at hc
  split_ifs at hc
  · simp at hc
  · exact (sortScoreDesc_perm (dedupComps l)).mem_iff.1
      ((List.take_sublist _ _).mem hc)

/-- Claim C2: the aggregator output never holds two comps with the same
normalized address; a comp kept by deduplication is the first occurrence
of its key among the accumulated candidates, and this carries over to the
aggregator output relative to its accumulator. -/
theorem claim2_dedup_first_seen :
    (∀ (env : Env) (city state zipcode : String)
        (bedrooms bathrooms latitude longitude price : Option ℚ),
      ((get_property_comps env city state zipcode bedrooms bathrooms
          latitude longitude price).1).Pairwise
        (fun a b => normKey a ≠ normKey b))
    ∧ (∀ (l : List Comp) (c : Comp), c ∈ dedupComps l →
        (l.filter (fun x => normKey x == normKey c)).head? = Option.some c)
    ∧ (∀ (env : Env) (city state zipcode : String)
        (bedrooms bathrooms latitude longitude price : Option ℚ) (c : Comp),
      c ∈ (get_property_comps env city state zipcode bedrooms bathrooms
          latitude longitude price).1 →
        (((allCompsAcc env city state zipcode bedrooms bathrooms latitude
            longitude price).1).filter
          (fun x => normKey x == normKey c)).head? = Option.some c) := by
  refine ⟨?_, ?_, ?_⟩
  · intro env city state zipcode bedrooms bathrooms latitude longitude price
    exact finalizeComps_pairwiseKeys _
  · intro l c hc
    exact dedupGo_firstSeen [] l c hc
  · intro env city state zipcode bedrooms bathrooms latitude longitude price c hc
    exact dedupGo_firstSeen [] _ c (finalizeComps_mem_dedup _ c hc)

theorem dedupGo_of_distinct (seen : List String) (l : List Comp)
    (hkeys : ∀ c ∈ l, normKey c ≠ "" ∧ normKey c ∉ seen)
    (hdis : l.Pairwise (fun a b => normKey a ≠ normKey b)) :
    dedupGo seen l = l := by
  induction l generalizing seen with
  | nil => rfl
  | cons d rest ih =>
    rcases List.pairwise_cons.1 hdis with ⟨hd, hrest⟩
    have hdk := hkeys d (List.mem_cons_self _ _)
    unfold dedupGo
    rw [if_pos ⟨hdk.1, hdk.2⟩, ih _ ?_ hrest]
    intro c hc
    rcases hkeys c (List.mem_cons_of_mem _ hc) with ⟨h1, h2⟩
    refine ⟨h1, ?_⟩
    intro hmem
    rcases List.mem_cons.1 hmem with hEq | hmem'
    · exact hd c hc hEq.symm
    · exact h2 hmem'

/-- Claim C3: the aggregator output is at most 15 long and sorted by
descending similarity score; the sort is stable, in that restricting to
any fixed score value preserves the pre-sort order; and on an accumulator
of 20 candidates with pairwise distinct nonempty normalized addresses the
output holds exactly 15 comps. -/
theorem claim3_sort_truncate :
    (∀ l : List Comp, (finalizeComps l).length ≤ 15)
    ∧ (∀ l : List Comp, SortedDesc (finalizeComps l))
    ∧ (∀ (l : List Comp) (s : ℚ),
        (sortScoreDesc l).filter (fun c => scoreKey c == s)
          = l.filter (fun c => scoreKey c == s))
    ∧ (∀ l : List Comp, l.length = 20
        → (∀ c ∈ l, normKey c ≠ "")
        → l.Pairwise (fun a b => normKey a ≠ normKey b)
        → (finalizeComps l).length = 15) := by
  refine ⟨finalizeComps_length, finalizeComps_sorted, sortScoreDesc_filter, ?_⟩
  intro l hlen hkeys hdis
  have hne : l.isEmpty = false := by
    cases l
    · simp at hlen
    · rfl
  have hded : dedupComps l = l :=
    dedupGo_of_distinct [] l (fun c hc => ⟨hkeys c hc, by simp⟩) hdis
  unfold finalizeComps
  rw [hne, hded]
  simp only [Bool.false_eq_true, if_false, List.length_take,
    (sortScoreDesc_perm l).length_eq, hlen]
  norm_num

theorem get_long_term_comps_direct_fail (f : Fetch ApiBody) (t : Target)
    (h : f.isFail = true) : (get_long_term_comps_direct f t).1 = [] := by
  cases f with
  | exn => rfl
  | httpError code => rfl
  | ok b => simp [Fetch.isFail] at h

theorem hood_listings_fail (f : Fetch ApiBody) (t : Target)
    (d : Option (WithTop ℝ)) (h : f.isFail = true) :
    (_get_traditional_listings_by_neighborhood_enhanced f t d).1 = [] := by
  cases f with
  | exn => rfl
  | httpError code => rfl
  | ok b => simp [Fetch.isFail] at h

theorem get_city_neighborhoods_fail (f : Fetch HoodsBody)
    (h : f.isFail = true) : (get_city_neighborhoods f).1 = [] := by
  cases f with
  | exn => rfl
  | httpError code => rfl
  | ok b => simp [Fetch.isFail] at h

theorem neighborhood_comps_hoods_fail (env : Env) (t : Target)
    (h : env.hoods.isFail = true) :
    (_get_neighborhood_based_comps env t).1 = [] := by
  unfold _get_neighborhood_based_comps
  simp only [get_city_neighborhoods_fail env.hoods h, List.isEmpty_nil,
    if_true]

/-- Claim C1: every upstream failure mode, a raised exception during the
call or its processing as well as a non-success status, yields zero comps
from that source; the aggregator then continues with the remaining
sources, and when every source fails it returns the empty list, a valid
result, rather than raising. -/
theorem claim1_failure_semantics :
    (∀ (f : Fetch ApiBody) (t : Target), f.isFail = true →
        (get_long_term_comps_direct f t).1 = [])
    ∧ (∀ (f : Fetch ApiBody) (t : Target) (d : Option (WithTop ℝ)),
        f.isFail = true →
        (_get_traditional_listings_by_neighborhood_enhanced f t d).1 = [])
    ∧ (∀ (f : Fetch HoodsBody), f.isFail = true →
        (get_city_neighborhoods f).1 = [])
    ∧ (∀ (env : Env) (city state zipcode : String)
        (bedrooms bathrooms latitude longitude price : Option ℚ),
        env.direct.isFail = true →
        (get_property_comps env city state zipcode bedrooms bathrooms
            latitude longitude price).1
          = finalizeComps ((_get_neighborhood_based_comps env
              (mkTarget city state zipcode bedrooms bathrooms latitude
                longitude price)).1))
    ∧ (∀ (env : Env) (city state zipcode : String)
        (bedrooms bathrooms latitude longitude price : Option ℚ),
        env.direct.isFail = true → env.hoods.isFail = true →
        (get_property_comps env city state zipcode bedrooms bathrooms
            latitude longitude price).1 = []) := by
  refine ⟨get_long_term_comps_direct_fail, hood_listings_fail,
    get_city_neighborhoods_fail, ?_, ?_⟩
  · intro env city state zipcode bedrooms bathrooms latitude longitude price h
    unfold get_property_comps allCompsAcc
    simp only [get_long_term_comps_direct_fail env.direct _ h,
      List.length_nil, List.nil_append]
    norm_num
  · intro env city state zipcode bedrooms bathrooms latitude longitude price h1 h2
    unfold get_property_comps allCompsAcc
    simp only [get_long_term_comps_direct_fail env.direct _ h1,
      neighborhood_comps_hoods_fail env _ h2,
      List.length_nil, List.nil_append]
    norm_num [finalizeComps]

/-- An environment in which every upstream source fails. -/
def envDown : Env :=
  { direct := Fetch.exn, hoods := Fetch.httpError 500,
    listings := fun _ => Fetch.exn }

/-- Claim C1 witness: with every source down, the aggregator returns the
empty list for a concrete request. -/
theorem claim1_witness :
    (get_property_comps envDown "Chicago" "IL" "60601" Option.none
      Option.none Option.none Option.none Option.none).1 = [] :=
  claim1_failure_semantics.2.2.2.2 envDown "Chicago" "IL" "60601"
    Option.none Option.none Option.none Option.none Option.none rfl rfl

theorem hoodLoop_log_lt (env : Env) (t : Target) :
    ∀ (hoods : List Hood) (i : Nat) (acc : List Comp), acc.length < 15 →
      ∀ p ∈ (hoodLoop env t hoods i acc).2.1, p.2 < 15 := by
  intro hoods
  induction hoods with
  | nil =>
    intro i acc hacc p hp
    simp [hoodLoop] at hp
  | cons h rest ih =>
    intro i acc hacc p hp
    unfold hoodLoop at hp
    dsimp only at hp
    split at hp
    · simp at hp
    · split at hp
      · exact ih _ _ hacc p hp
      · split at hp
        · dsimp only at hp
          rcases List.mem_cons.1 hp with rfl | hp'
          · exact hacc
          · exact ih _ _ hacc p hp'
        · split at hp
          · dsimp only at hp
            rcases List.mem_singleton.1 hp with rfl
            exact hacc
          · dsimp only at hp
            rcases List.mem_cons.1 hp with rfl | hp'
            · exact hacc
            · rename_i hlen
              refine ih _ _ ?_ p hp'
              omega

/-- Claim C7, amended: during the supplemental phase, a neighborhood fetch
is only ever issued while the phase accumulator, which counts the comps
gathered in step 2 alone and not the step 1 direct comps, holds fewer than
15 comps; the loop stops once this phase count reaches 15. The direct
comps of step 1 are not counted toward the threshold. -/
theorem claim7_phase_threshold (env : Env) (t : Target) (p : String × Nat)
    (hp : p ∈ (_get_neighborhood_based_comps env t).2.1) : p.2 < 15 := by
  unfold _get_neighborhood_based_comps at hp
  dsimp only at hp
  split at hp
  · simp at hp
  · exact hoodLoop_log_lt env t _ 0 [] (by norm_num) p hp

/-- A raw listing record with an address and a price of 100. -/
def rawL (a : String) : RawComp :=
  { address := Option.some a, price := Option.some 100 }

/-- A successful listing body with the records under the results key. -/
def bodyOf (rs : List RawComp) : ApiBody :=
  { status := "success",
    content := Option.some (PayloadContent.dict [("results", rs)]) }

/-- A raw neighborhood record carrying only an id. -/
def rawHood (i : String) : RawHood := { id := Option.some i }

/-- A target with only city and state set. -/
def t7 : Target := mkTarget "c" "s" "" Option.none Option.none Option.none
  Option.none Option.none

/-- The neighborhoods body naming three neighborhoods without
coordinates. -/
def hoodsBody7 : HoodsBody :=
  { status := "success",
    results := Option.some [rawHood "n1", rawHood "n2", rawHood "n3"] }

/-- An environment where the direct source yields 4 passing comps, the
first neighborhood 10, and the second and third 1 each. -/
def env7 : Env :=
  { direct := Fetch.ok (bodyOf [rawL "d1", rawL "d2", rawL "d3", rawL "d4"]),
    hoods := Fetch.ok hoodsBody7,
    listings := fun hid =>
      if hid = "n1" then Fetch.ok (bodyOf [rawL "a1", rawL "a2", rawL "a3",
        rawL "a4", rawL "a5", rawL "a6", rawL "a7", rawL "a8", rawL "a9",
        rawL "a10"])
      else if hid = "n2" then Fetch.ok (bodyOf [rawL "b1"])
      else if hid = "n3" then Fetch.ok (bodyOf [rawL "c1"])
      else Fetch.exn }

/-- Claim C7 counterexample: step 1 contributes 4 comps, so the
supplemental phase runs; after the second neighborhood fetch the comps
accumulated across both steps number 4 plus 11, reaching 15, so the claim
demands that no further neighborhood be fetched; yet the fetch log shows a
third fetch, issued with only 11 comps in the phase accumulator, and five
outbound calls in total. The loop threshold counts only the phase
accumulator of step 2, not the comps of both steps. -/
theorem claim7_counterexample :
    (get_long_term_comps_direct env7.direct t7).1.length = 4
    ∧ (allCompsAcc env7 "c" "s" "" Option.none Option.none Option.none
        Option.none Option.none).2.1 = [("n1", 0), ("n2", 10), ("n3", 11)]
    ∧ (get_property_comps env7 "c" "s" "" Option.none Option.none
        Option.none Option.none Option.none).2 = 5 := by
  have f1 : ¬((100:ℚ) ≤ 0) := by norm_num
  have f2 : pymin 10 100 = 10 := by norm_num [pymin]
  refine ⟨?_, ?_, ?_⟩ <;>
  simp [env7, t7, mkTarget, get_property_comps, allCompsAcc,
    get_long_term_comps_direct, _get_neighborhood_based_comps,
    get_city_neighborhoods, _find_closest_neighborhoods, hoodLoop,
    _get_traditional_listings_by_neighborhood_enhanced, formatHoodComp,
    hoodsBody7, rawHood, bodyOf, rawL,
    extractRecords, contentTruthy, lookupKeys, List.lookup, formatDirectComp,
    _should_include_comp, _calculate_similarity_score, bedroomsScore,
    bathroomsScore, priceScore, sqftScore, distScore, pymin, truthyQ,
    truthyOQ, List.filterMap, sortScoreDesc, insertScoreDesc, scoreKey,
    f1, f2, le_refl]

/-- A neighborhoods body naming one neighborhood. -/
def hoodsBodyW : HoodsBody :=
  { status := "success", results := Option.some [rawHood "m1"] }

/-- An environment with one neighborhood yielding one comp. -/
def env7w : Env :=
  { direct := Fetch.exn,
    hoods := Fetch.ok hoodsBodyW,
    listings := fun _ => Fetch.ok (bodyOf [rawL "w1"]) }

/-- Claim C7 witness: in a concrete run the logged fetch happened with an
empty phase accumulator, below the threshold of 15. -/
theorem claim7_witness :
    ("m1", 0) ∈ (_get_neighborhood_based_comps env7w t7).2.1
    ∧ (("m1", 0) : String × Nat).2 < 15 := by
  have f1 : ¬((100:ℚ) ≤ 0) := by norm_num
  have hmem : ("m1", 0) ∈ (_get_neighborhood_based_comps env7w t7).2.1 := by
    simp [env7w, hoodsBodyW, t7, mkTarget, _get_neighborhood_based_comps,
      get_city_neighborhoods, _find_closest_neighborhoods, hoodLoop,
      _get_traditional_listings_by_neighborhood_enhanced, formatHoodComp,
      rawHood, bodyOf, rawL, extractRecords, contentTruthy, lookupKeys,
      List.lookup, _should_include_comp, _calculate_similarity_score,
      bedroomsScore, bathroomsScore, priceScore, sqftScore, distScore,
      pymin, truthyQ, truthyOQ, List.filterMap, sortScoreDesc,
      insertScoreDesc, scoreKey, f1, le_refl]
  exact ⟨hmem, claim7_phase_threshold env7w t7 ("m1", 0) hmem⟩

theorem hoodLoop_mem (env : Env) (t : Target) :
    ∀ (hoods : List Hood) (i : Nat) (acc : List Comp) (c : Comp),
      c ∈ (hoodLoop env t hoods i acc).1 →
      c ∈ acc ∨ ∃ hid d, c ∈ (_get_traditional_listings_by_neighborhood_enhanced
        (env.listings hid) t d).1 := by
  intro hoods
  induction hoods with
  | nil =>
    intro i acc c hc
    exact Or.inl hc
  | cons h rest ih =>
    intro i acc c hc
    unfold hoodLoop at hc
    dsimp only at hc
    split at hc
    · exact Or.inl hc
    · split at hc
      · exact ih _ _ c hc
      · split at hc
        · exact ih _ _ c hc
        · split at hc
          · dsimp only at hc
            rcases List.mem_append.1 hc with hacc | hcomp
            · exact Or.inl hacc
            · exact Or.inr ⟨h.id.getD "", h.distance_miles, hcomp⟩
          · rcases ih _ _ c hc with hacc | hex
            · rcases List.mem_append.1 hacc with hacc' | hcomp
              · exact Or.inl hacc'
              · exact Or.inr ⟨h.id.getD "", h.distance_miles, hcomp⟩
            · exact Or.inr hex

/-- Claim C10: the direct source contributes at most 15 comps and each
per-neighborhood fetch at most 10, both already sorted by descending
similarity score, and every comp reaching the merge accumulator came from
one of these truncated per-source outputs. -/
theorem claim10_per_source_truncation :
    (∀ (f : Fetch ApiBody) (t : Target),
        (get_long_term_comps_direct f t).1.length ≤ 15
        ∧ SortedDesc (get_long_term_comps_direct f t).1)
    ∧ (∀ (f : Fetch ApiBody) (t : Target) (d : Option (WithTop ℝ)),
        (_get_traditional_listings_by_neighborhood_enhanced f t d).1.length ≤ 10
        ∧ SortedDesc (_get_traditional_listings_by_neighborhood_enhanced f t d).1)
    ∧ (∀ (env : Env) (city state zipcode : String)
        (bedrooms bathrooms latitude longitude price : Option ℚ) (c : Comp),
        c ∈ (allCompsAcc env city state zipcode bedrooms bathrooms latitude
          longitude price).1 →
        c ∈ (get_long_term_comps_direct env.direct (mkTarget city state
          zipcode bedrooms bathrooms latitude longitude price)).1
        ∨ ∃ hid d, c ∈ (_get_traditional_listings_by_neighborhood_enhanced
          (env.listings hid) (mkTarget city state zipcode bedrooms bathrooms
            latitude longitude price) d).1) := by
  refine ⟨?_, ?_, ?_⟩
  · intro f t
    cases f with
    | exn => exact ⟨by simp [get_long_term_comps_direct], List.Pairwise.nil⟩
    | httpError code =>
      exact ⟨by simp [get_long_term_comps_direct], List.Pairwise.nil⟩
    | ok b =>
      constructor
      · simpa [get_long_term_comps_direct] using List.length_take_le _ _
      · exact (sortScoreDesc_sorted _).sublist (List.take_sublist _ _)
  · intro f t d
    cases f with
    | exn =>
      exact ⟨by simp [_get_traditional_listings_by_neighborhood_enhanced],
        List.Pairwise.nil⟩
    | httpError code =>
      exact ⟨by simp [_get_traditional_listings_by_neighborhood_enhanced],
        List.Pairwise.nil⟩
    | ok b =>
      constructor
      · simpa [_get_traditional_listings_by_neighborhood_enhanced]
          using List.length_take_le _ _
      · exact (sortScoreDesc_sorted _).sublist (List.take_sublist _ _)
  · intro env city state zipcode bedrooms bathrooms latitude longitude price c hc
    unfold allCompsAcc at hc
    dsimp only at hc
    split at hc
    · rcases List.mem_append.1 hc with hdir | hsupp
      · exact Or.inl hdir
      · unfold _get_neighborhood_based_comps at hsupp
        dsimp only at hsupp
        split at hsupp
        · simp at hsupp
        · rcases hoodLoop_mem env _ _ 0 [] c hsupp with hnil | hex
          · simp at hnil
          · exact Or.inr hex
    · exact Or.inl hc

/-- An environment whose direct source yields one passing comp. -/
def env10 : Env :=
  { direct := Fetch.ok (bodyOf [rawL "z1"]), hoods := Fetch.exn,
    listings := fun _ => Fetch.exn }

/-- The formatted and scored comp the direct source of env10 produces. -/
def comp10 : Comp :=
  { address := "z1", city := "", state := "", zipcode := "",
    price := 100, rent := 100, bedrooms := 0, bathrooms := 0, sqft := 0,
    year_built := Option.none, property_type := "",
    neighborhood := Option.none, source := "Mashvisor Long-term Comps API",
    neighborhood_distance_miles := Option.none,
    similarity_score := Option.some 10 }

/-- Claim C10 witness: a concrete comp in the merge accumulator is traced
back to a truncated per-source output. -/
theorem claim10_witness :
    comp10 ∈ (allCompsAcc env10 "c" "s" "" Option.none Option.none
      Option.none Option.none Option.none).1
    ∧ (comp10 ∈ (get_long_term_comps_direct env10.direct (mkTarget "c" "s"
        "" Option.none Option.none Option.none Option.none Option.none)).1
      ∨ ∃ hid d, comp10 ∈ (_get_traditional_listings_by_neighborhood_enhanced
        (env10.listings hid) (mkTarget "c" "s" "" Option.none Option.none
          Option.none Option.none Option.none) d).1) := by
  have f1 : ¬((100:ℚ) ≤ 0) := by norm_num
  have f2 : pymin 10 100 = 10 := by norm_num [pymin]
  have hmem : comp10 ∈ (allCompsAcc env10 "c" "s" "" Option.none Option.none
      Option.none Option.none Option.none).1 := by
    simp [env10, comp10, mkTarget, allCompsAcc, get_long_term_comps_direct,
      _get_neighborhood_based_comps, get_city_neighborhoods, bodyOf, rawL,
      extractRecords, contentTruthy, lookupKeys, List.lookup,
      formatDirectComp, _should_include_comp, _calculate_similarity_score,
      bedroomsScore, bathroomsScore, priceScore, sqftScore, distScore,
      pymin, truthyQ, truthyOQ, List.filterMap, sortScoreDesc,
      insertScoreDesc, scoreKey, f1, f2, le_refl,
      show (10:ℚ) ≤ 100 by norm_num]
  exact ⟨hmem, claim10_per_source_truncation.2.2 env10 "c" "s" ""
    Option.none Option.none Option.none Option.none Option.none comp10 hmem⟩

theorem get_long_term_comps_direct_calls (f : Fetch ApiBody) (t : Target) :
    (get_long_term_comps_direct f t).2 = 1 := by
  cases f <;> rfl

/-- Claim C8, amended: no validation of city or state exists on this path;
even when both are missing the route handler invokes the aggregator with
empty-string defaults, at least one upstream call (the direct comps
request) is always attempted, and the caller receives an ordinary list
rather than a rejection. -/
theorem claim8_no_fail_fast (env : Env) (req : PropReq)
    (hcity : req.city = Option.none) (hstate : req.state = Option.none) :
    1 ≤ (routePropertyComps env req).2 := by
  have hacc : 1 ≤ (allCompsAcc env (req.city.getD "") (req.state.getD "")
      (req.zip.getD "") req.bedrooms req.bathrooms req.latitude
      req.longitude Option.none).2.2 := by
    unfold allCompsAcc
    dsimp only
    split <;> dsimp only <;> rw [get_long_term_comps_direct_calls] <;> omega
  unfold routePropertyComps get_property_comps
  dsimp only
  split
  · exact hacc
  · dsimp only
    omega

/-- Claim C8 counterexample: with city and state missing from the request
and every upstream source failing, the route handler still performs three
upstream calls (direct comps, neighborhoods lookup, and the fallback
neighborhoods lookup) and returns a plain empty list; nothing is rejected
before network work begins. -/
theorem claim8_counterexample :
    ({} : PropReq).city = Option.none
    ∧ (routePropertyComps envDown {}).2 = 3
    ∧ (routePropertyComps envDown {}).1 = [] := by
  refine ⟨rfl, ?_, ?_⟩ <;>
  simp [envDown, routePropertyComps, get_property_comps, allCompsAcc,
    get_long_term_comps_direct, _get_neighborhood_based_comps,
    get_city_neighborhoods, mkTarget, finalizeComps]

/-- Claim C8 witness: the amended statement applied to the all-failing
environment and the empty request. -/
theorem claim8_witness : 1 ≤ (routePropertyComps envDown {}).2 :=
  claim8_no_fail_fast envDown {} rfl rfl

/-- A dynamically typed Python value as the scorer can receive it: absent
or None, a number, or a string. -/
inductive PyVal where
  | none : PyVal
  | num (q : ℚ) : PyVal
  | str (s : String) : PyVal
deriving DecidableEq, Repr

/-- Python truthiness of a dynamic value. -/
def PyVal.truthy : PyVal → Bool
  | PyVal.none => false
  | PyVal.num q => q != 0
  | PyVal.str s => s != ""

/-- The Python exception kinds the scorer can raise. -/
inductive PyErr where
  | typeError : PyErr
  | valueError : PyErr
deriving DecidableEq, Repr

/-- The float builtin: numbers convert to themselves, None raises
TypeError, and a string is parsed or raises ValueError. Only unsigned
integer literals are recognized here; that is enough for every statement
below, which probes non-numeric strings. -/
def pyFloat : PyVal → Except PyErr ℚ
  | PyVal.none => Except.error PyErr.typeError
  | PyVal.num q => Except.ok q
  | PyVal.str s =>
    if s.data ≠ [] ∧ s.data.all Char.isDigit
    then Except.ok ((s.data.foldl (fun acc c => 10 * acc + (c.toNat - 48)) 0 : Nat) : ℚ)
    else Except.error PyErr.valueError

/-- Python equality test on dynamic values: never raises, values of
different kinds are unequal. -/
def pyEq : PyVal → PyVal → Bool
  | PyVal.none, PyVal.none => true
  | PyVal.num a, PyVal.num b => a == b
  | PyVal.str a, PyVal.str b => a == b
  | _, _ => false

/-- Python subtraction on dynamic values: defined for numbers, raises
TypeError otherwise. -/
def pySub : PyVal → PyVal → Except PyErr ℚ
  | PyVal.num a, PyVal.num b => Except.ok (a - b)
  | _, _ => Except.error PyErr.typeError

/-- The scorable entries of a property dictionary as dynamic values. -/
structure DynProp where
  bedrooms : PyVal := PyVal.none
  bathrooms : PyVal := PyVal.none
  price : PyVal := PyVal.none
  sqft : PyVal := PyVal.none
  neighborhood_distance_miles : PyVal := PyVal.none
deriving DecidableEq, Repr

/-- Bedroom block of the scorer over dynamic values, lines 79 to 85: the
equality test cannot raise, but the subtraction in the elif branches can. -/
def bedroomsScoreE (c t : PyVal) : Except PyErr ℚ :=
  if c.truthy && t.truthy then
    if pyEq c t then Except.ok 25
    else
      match pySub c t with
      | Except.error e => Except.error e
      | Except.ok d =>
        if |d| = 1 then Except.ok 15
        else if |d| = 2 then Except.ok 5
        else Except.ok 0
  else Except.ok 0

/-- Bathroom block over dynamic values, lines 88 to 94. -/
def bathroomsScoreE (c t : PyVal) : Except PyErr ℚ :=
  if c.truthy && t.truthy then
    if pyEq c t then Except.ok 20
    else
      match pySub c t with
      | Except.error e => Except.error e
      | Except.ok d =>
        if |d| ≤ 1/2 then Except.ok 15
        else if |d| ≤ 1 then Except.ok 8
        else Except.ok 0
  else Except.ok 0

/-- Price block over dynamic values, lines 97 to 109: both sides pass
through the float builtin, which raises on non-numeric strings. -/
def priceScoreE (c t : PyVal) : Except PyErr ℚ :=
  if c.truthy && t.truthy then
    match pyFloat c with
    | Except.error e => Except.error e
    | Except.ok cp =>
      match pyFloat t with
      | Except.error e => Except.error e
      | Except.ok tp =>
        if 0 < cp ∧ 0 < tp then
          let pct := |cp - tp| / tp
          if pct ≤ 1/10 then Except.ok 20
          else if pct ≤ 1/5 then Except.ok 15
          else if pct ≤ 3/10 then Except.ok 10
          else if pct ≤ 1/2 then Except.ok 5
          else Except.ok 0
        else Except.ok 0
  else Except.ok 0

/-- Square-footage block over dynamic values, lines 112 to 124. -/
def sqftScoreE (c t : PyVal) : Except PyErr ℚ :=
  if c.truthy && t.truthy then
    match pyFloat c with
    | Except.error e => Except.error e
    | Except.ok cs =>
      match pyFloat t with
      | Except.error e => Except.error e
      | Except.ok ts =>
        if 0 < cs ∧ 0 < ts then
          let pct := |cs - ts| / ts
          if pct ≤ 1/10 then Except.ok 15
          else if pct ≤ 1/5 then Except.ok 12
          else if pct ≤ 3/10 then Except.ok 8
          else if pct ≤ 1/2 then Except.ok 4
          else Except.ok 0
        else Except.ok 0
  else Except.ok 0

/-- Distance block over dynamic values, lines 127 to 139: keyed on the
entry not being None; a present entry passes through the float builtin. -/
def distScoreE (v : PyVal) : Except PyErr ℚ :=
  match v with
  | PyVal.none => Except.ok 10
  | w =>
    match pyFloat w with
    | Except.error e => Except.error e
    | Except.ok d =>
      if d ≤ 1 then Except.ok 20
      else if d ≤ 2 then Except.ok 15
      else if d ≤ 5 then Except.ok 10
      else if d ≤ 10 then Except.ok 5
      else Except.ok 0

/-- _calculate_similarity_score over dynamic values, lines 73 to 141: the
five blocks run in order, the first raised exception propagates, and the
sum is capped at 100. -/
def calculate_similarity_scoreE (c t : DynProp) : Except PyErr ℚ :=
  match bedroomsScoreE c.bedrooms t.bedrooms with
  | Except.error e => Except.error e
  | Except.ok s1 =>
    match bathroomsScoreE c.bathrooms t.bathrooms with
    | Except.error e => Except.error e
    | Except.ok s2 =>
      match priceScoreE c.price t.price with
      | Except.error e => Except.error e
      | Except.ok s3 =>
        match sqftScoreE c.sqft t.sqft with
        | Except.error e => Except.error e
        | Except.ok s4 =>
          match distScoreE c.neighborhood_distance_miles with
          | Except.error e => Except.error e
          | Except.ok s5 => Except.ok (pymin (s1 + s2 + s3 + s4 + s5) 100)

/-- A dynamic value that is absent or a number, never a string. -/
def PyVal.wellTypedB : PyVal → Bool
  | PyVal.str _ => false
  | _ => true

/-- All scorable entries absent or numeric. -/
def DynProp.wellTypedB (p : DynProp) : Bool :=
  p.bedrooms.wellTypedB && p.bathrooms.wellTypedB && p.price.wellTypedB
    && p.sqft.wellTypedB && p.neighborhood_distance_miles.wellTypedB

theorem bedroomsScoreE_total (a b : PyVal) (ha : a.wellTypedB = true)
    (hb : b.wellTypedB = true) : ∃ q, bedroomsScoreE a b = Except.ok q := by
  cases a with
  | str s => simp [PyVal.wellTypedB] at ha
  | none => exact ⟨0, by simp [bedroomsScoreE, PyVal.truthy]⟩
  | num qa =>
    cases b with
    | str s => simp [PyVal.wellTypedB] at hb
    | none => exact ⟨0, by simp [bedroomsScoreE, PyVal.truthy]⟩
    | num qb =>
      simp only [bedroomsScoreE, PyVal.truthy, pyEq, pySub]
      split_ifs <;> exact ⟨_, rfl⟩

theorem bathroomsScoreE_total (a b : PyVal) (ha : a.wellTypedB = true)
    (hb : b.wellTypedB = true) : ∃ q, bathroomsScoreE a b = Except.ok q := by
  cases a with
  | str s => simp [PyVal.wellTypedB] at ha
  | none => exact ⟨0, by simp [bathroomsScoreE, PyVal.truthy]⟩
  | num qa =>
    cases b with
    | str s => simp [PyVal.wellTypedB] at hb
    | none => exact ⟨0, by simp [bathroomsScoreE, PyVal.truthy]⟩
    | num qb =>
      simp only [bathroomsScoreE, PyVal.truthy, pyEq, pySub]
      split_ifs <;> exact ⟨_, rfl⟩

theorem priceScoreE_total (a b : PyVal) (ha : a.wellTypedB = true)
    (hb : b.wellTypedB = true) : ∃ q, priceScoreE a b = Except.ok q := by
  cases a with
  | str s => simp [PyVal.wellTypedB] at ha
  | none => exact ⟨0, by simp [priceScoreE, PyVal.truthy]⟩
  | num qa =>
    cases b with
    | str s => simp [PyVal.wellTypedB] at hb
    | none => exact ⟨0, by simp [priceScoreE, PyVal.truthy]⟩
    | num qb =>
      simp only [priceScoreE, PyVal.truthy, pyFloat]
      split_ifs <;> exact ⟨_, rfl⟩

theorem sqftScoreE_total (a b : PyVal) (ha : a.wellTypedB = true)
    (hb : b.wellTypedB = true) : ∃ q, sqftScoreE a b = Except.ok q := by
  cases a with
  | str s => simp [PyVal.wellTypedB] at ha
  | none => exact ⟨0, by simp [sqftScoreE, PyVal.truthy]⟩
  | num qa =>
    cases b with
    | str s => simp [PyVal.wellTypedB] at hb
    | none => exact ⟨0, by simp [sqftScoreE, PyVal.truthy]⟩
    | num qb =>
      simp only [sqftScoreE, PyVal.truthy, pyFloat]
      split_ifs <;> exact ⟨_, rfl⟩

theorem distScoreE_total (v : PyVal) (hv : v.wellTypedB = true) :
    ∃ q, distScoreE v = Except.ok q := by
  cases v with
  | str s => simp [PyVal.wellTypedB] at hv
  | none => exact ⟨10, rfl⟩
  | num q =>
    simp only [distScoreE, pyFloat]
    split_ifs <;> exact ⟨_, rfl⟩

/-- Claim C9, amended: the scorer is total on inputs whose scorable fields
are absent or numeric, but not on malformed string values: a present
non-numeric string raises (a ValueError from the float builtin, or a
TypeError from subtraction), which is swallowed only by the enclosing try
block of the calling fetcher, turning that whole source's contribution to
zero comps. -/
theorem claim9_scorer_totality (c t : DynProp)
    (hc : c.wellTypedB = true) (ht : t.wellTypedB = true) :
    ∃ q, calculate_similarity_scoreE c t = Except.ok q := by
  simp only [DynProp.wellTypedB, Bool.and_eq_true] at hc ht
  obtain ⟨⟨⟨⟨hc1, hc2⟩, hc3⟩, hc4⟩, hc5⟩ := hc
  obtain ⟨⟨⟨⟨ht1, ht2⟩, ht3⟩, ht4⟩, ht5⟩ := ht
  obtain ⟨q1, e1⟩ := bedroomsScoreE_total _ _ hc1 ht1
  obtain ⟨q2, e2⟩ := bathroomsScoreE_total _ _ hc2 ht2
  obtain ⟨q3, e3⟩ := priceScoreE_total _ _ hc3 ht3
  obtain ⟨q4, e4⟩ := sqftScoreE_total _ _ hc4 ht4
  obtain ⟨q5, e5⟩ := distScoreE_total _ hc5
  refine ⟨pymin (q1 + q2 + q3 + q4 + q5) 100, ?_⟩
  simp [calculate_similarity_scoreE, e1, e2, e3, e4, e5]

/-- A comp whose price entry holds a malformed string. -/
def badComp : DynProp := { price := PyVal.str "abc" }

/-- A target with a numeric price. -/
def okTarget : DynProp := { price := PyVal.num 100 }

/-- Claim C9 counterexample: with a malformed price string on the comp and
a numeric price on the target, the truthiness guards pass and the float
conversion raises a ValueError instead of treating the dimension as not
applicable; the scorer is not total on malformed input. -/
theorem claim9_counterexample :
    calculate_similarity_scoreE badComp okTarget
      = Except.error PyErr.valueError := by
  simp [calculate_similarity_scoreE, badComp, okTarget, bedroomsScoreE,
    bathroomsScoreE, priceScoreE, pyFloat, PyVal.truthy, pyEq, pySub]

/-- Claim C9 witness: the amended totality applied at the all-absent
dictionaries. -/
theorem claim9_witness :
    ∃ q, calculate_similarity_scoreE {} {} = Except.ok q :=
  claim9_scorer_totality {} {} rfl rfl

/-- Neighborhood A of the claimed scenario, at coordinates 10, 10. -/
def hoodA : Hood :=
  { id := Option.some "A", name := Option.some "A",
    latitude := Option.some 10, longitude := Option.some 10 }

/-- Neighborhood B of the claimed scenario, at coordinates 0, 0. -/
def hoodB : Hood :=
  { id := Option.some "B", name := Option.some "B",
    latitude := Option.some 0, longitude := Option.some 0 }

/-- Claim C5, evaluated on the code at the claimed scenario: with the
target at coordinates 0, 0 the is-not-None guard admits the sorting path,
but the distance helper tests the raw coordinate values with a Python all,
so the 0 coordinates count as missing: both neighborhoods receive the
infinite sentinel and the stable sort keeps the input order A then B,
not the claimed B then A. The intended behavior, distance ranking of
neighborhoods with present coordinates, is defeated by the truthiness
test. -/
theorem claim5_zero_coordinate_ranking :
    (_find_closest_neighborhoods [hoodA, hoodB] "" (Option.some 0)
      (Option.some 0)).map Hood.id
      = [Option.some "A", Option.some "B"] := by
  simp [_find_closest_neighborhoods, hoodA, hoodB, _calculate_distance,
    truthyOQ, sortHoodsAsc, insertHoodAsc, hoodDistanceKey, le_top]

/-- A comp differing from the blank one only in address and price. -/
def wComp (a : String) : Comp := { blankComp with address := a, price := 100 }

/-- Claim C2 witness: of two accumulated candidates whose addresses are
"123 Main St" and " 123 main st ", deduplication keeps exactly the
first-seen one, per the first-seen characterization. -/
theorem claim2_witness :
    wComp "123 Main St" ∈ dedupComps [wComp "123 Main St", wComp " 123 main st "]
    ∧ ([wComp "123 Main St", wComp " 123 main st "].filter
        (fun x => normKey x == normKey (wComp "123 Main St"))).head?
      = Option.some (wComp "123 Main St") := by
  have hmem : wComp "123 Main St"
      ∈ dedupComps [wComp "123 Main St", wComp " 123 main st "] := by
    decide
  exact ⟨hmem, claim2_dedup_first_seen.2.1 _ _ hmem⟩

/-- Twenty comps with pairwise distinct nonempty addresses. -/
def list20 : List Comp :=
  [wComp "a01", wComp "a02", wComp "a03", wComp "a04", wComp "a05",
   wComp "a06", wComp "a07", wComp "a08", wComp "a09", wComp "a10",
   wComp "a11", wComp "a12", wComp "a13", wComp "a14", wComp "a15",
   wComp "a16", wComp "a17", wComp "a18", wComp "a19", wComp "a20"]

/-- Claim C3 witness: on 20 passing candidates with distinct addresses the
finalization returns exactly 15 comps. -/
theorem claim3_witness : (finalizeComps list20).length = 15 :=
  claim3_sort_truncate.2.2.2 list20 (by decide) (by decide) (by decide)
